import Mathlib

/-!
Shallow embedding of the spiking neural network of `SNN.py` (class
`SNNetwork`).  Tensors are modelled as a shape together with a total value
function over index lists, numbers as rationals.  The external collaborators
(the filter-basis constructors, the uniform random draws used to initialise
weights, the Bernoulli sampler, and the `sigmoid` and `log` functions) are
passed in as explicit function parameters, which makes every operation a pure,
computable Lean function.  Failing `assert` statements and raised exceptions
are modelled with `Except`.
-/

/-- A numeric array as the source's `torch` tensors: a shape together with the
entries, indexed by a list of coordinates. -/
structure NdArray where
  shape : List ℕ
  val : List ℕ → ℚ

/-- 1-D tensor of length `n` with entries `f i`. -/
def vec (n : ℕ) (f : ℕ → ℚ) : NdArray :=
  ⟨[n], fun ix => f (ix.headD 0)⟩

/-- 2-D tensor of shape `[r, c]` with entries `f i j`. -/
def mat (r c : ℕ) (f : ℕ → ℕ → ℚ) : NdArray :=
  ⟨[r, c], fun ix => f (ix.headD 0) (ix.tail.headD 0)⟩

/-- 3-D tensor of shape `[a, b, c]` with entries `f i j k`. -/
def ten3 (a b c : ℕ) (f : ℕ → ℕ → ℕ → ℚ) : NdArray :=
  ⟨[a, b, c], fun ix => f (ix.headD 0) (ix.tail.headD 0) (ix.tail.tail.headD 0)⟩

/-- Entry of a 1-D tensor. -/
def NdArray.at1 (x : NdArray) (i : ℕ) : ℚ := x.val [i]

/-- Entry of a 2-D tensor. -/
def NdArray.at2 (x : NdArray) (i j : ℕ) : ℚ := x.val [i, j]

/-- Entry of a 3-D tensor. -/
def NdArray.at3 (x : NdArray) (i j k : ℕ) : ℚ := x.val [i, j, k]

/-- The error kinds of the source: failing `assert` statements on tensor
shapes, the `AttributeError` raised on an unrecognized mode string, and the
`FileNotFoundError` of `save`. -/
inductive SNNError where
  | ShapeError
  | ConfigError
  | FileNotFoundError
deriving DecidableEq

/-- The starting index selected by a Python slice `x[s:]` on an axis of length
`len`: a negative `s` counts from the end (clamped at 0), a non-negative `s` is
clamped at `len`. -/
def pySliceStart (s : Int) (len : ℕ) : ℕ :=
  if s < 0 then len - (-s).toNat else min s.toNat len

/-- The state of an `SNNetwork` instance: the fields assigned by `__init__`.
`feedforward_filter` and `feedback_filter` hold the precomputed kernel tensor
(indexed by basis and lag, total over all lags since the kernels are external
collaborators of unspecified length). -/
structure SNNetwork where
  n_input_neurons : ℕ
  n_hidden_neurons : ℕ
  n_output_neurons : ℕ
  n_neurons : ℕ
  weights_magnitude : ℚ
  n_learnable_neurons : ℕ
  n_non_learnable_neurons : ℕ
  learnable_neurons : List ℕ
  mode : String
  visible_neurons : List ℕ
  n_basis_feedforward : ℕ
  feedforward_mask : NdArray
  feedforward_weights : NdArray
  feedforward_filter : ℕ → ℕ → ℚ
  tau_ff : ℕ
  n_basis_feedback : ℕ
  feedback_mask : NdArray
  feedback_weights : NdArray
  feedback_filter : ℕ → ℕ → ℚ
  tau_fb : ℕ
  bias : NdArray
  memory_length : ℕ
  spiking_history : NdArray
  potential : NdArray
  feedforward_potential : NdArray
  feedback_potential : NdArray
  bias_gradient : NdArray
  ff_gradient : NdArray
  fb_gradient : NdArray
  save_path : Option String

/-- `SNNetwork.__init__`.  The filter constructors receive `(tau, n_basis, mu)`
and produce a kernel; `randFF`, `randFB`, `randBias` stand for the
`torch.rand` draws (entry-indexed values in `[0, 1]`).  Unrecognized mode
strings raise (`AttributeError`), a topology whose shape is not
`[n_learnable_neurons, n_neurons]` fails the sanity `assert`s.  Note that both
kernels are built from `tau_fb`, exactly as in the source. -/
def SNNetwork.init (n_input_neurons n_hidden_neurons n_output_neurons : ℕ)
    (topology : NdArray)
    (n_basis_feedforward : ℕ) (feedforward_filter : ℕ → ℕ → ℚ → ℕ → ℕ → ℚ)
    (n_basis_feedback : ℕ) (feedback_filter : ℕ → ℕ → ℚ → ℕ → ℕ → ℚ)
    (tau_ff tau_fb : ℕ) (mu : ℚ) (weights_magnitude : ℚ)
    (task : String) (mode : String) (save_path : Option String)
    (randFF : ℕ → ℕ → ℕ → ℚ) (randFB : ℕ → ℕ → ℚ) (randBias : ℕ → ℚ) :
    Except SNNError SNNetwork :=
  let n_neurons := n_input_neurons + n_hidden_neurons + n_output_neurons
  let n_learnable_neurons :=
    if task = "supervised" then n_hidden_neurons + n_output_neurons else n_neurons
  let n_non_learnable_neurons := if task = "supervised" then n_input_neurons else 0
  let learnable_neurons :=
    if task = "supervised" then List.range' n_input_neurons (n_hidden_neurons + n_output_neurons)
    else List.range n_neurons
  if mode = "train" ∨ mode = "test" then
    let visible_neurons :=
      if mode = "train" then
        List.range n_input_neurons ++
          List.range' (n_input_neurons + n_hidden_neurons) n_output_neurons
      else List.range n_input_neurons
    if topology.shape.headD 0 = n_learnable_neurons then
      if topology.shape.getLastD 0 = n_neurons then
        let feedforward_mask := ten3 n_learnable_neurons n_neurons n_basis_feedforward
          (fun i j _ =>
            if i < n_learnable_neurons ∧ j = learnable_neurons.getD i 0 then 0
            else topology.at2 i j)
        .ok {
          n_input_neurons := n_input_neurons
          n_hidden_neurons := n_hidden_neurons
          n_output_neurons := n_output_neurons
          n_neurons := n_neurons
          weights_magnitude := weights_magnitude
          n_learnable_neurons := n_learnable_neurons
          n_non_learnable_neurons := n_non_learnable_neurons
          learnable_neurons := learnable_neurons
          mode := mode
          visible_neurons := visible_neurons
          n_basis_feedforward := n_basis_feedforward
          feedforward_mask := feedforward_mask
          feedforward_weights := ten3 n_learnable_neurons n_neurons n_basis_feedforward
            (fun i j b =>
              weights_magnitude * (randFF i j b * 2 - 1) * feedforward_mask.at3 i j b)
          feedforward_filter := feedforward_filter tau_fb n_basis_feedforward mu
          tau_ff := tau_ff
          n_basis_feedback := n_basis_feedback
          feedback_mask := mat n_neurons n_basis_feedback
            (fun j _ => if j ∈ learnable_neurons then 1 else 0)
          feedback_weights := mat n_learnable_neurons n_basis_feedback
            (fun k b => weights_magnitude * (randFB k b * 2 - 1))
          feedback_filter := feedback_filter tau_fb n_basis_feedback mu
          tau_fb := tau_fb
          bias := vec n_learnable_neurons (fun k => weights_magnitude * (randBias k * 2 - 1))
          memory_length := max tau_ff tau_fb
          spiking_history := mat n_neurons 1 (fun _ _ => 0)
          potential := vec n_learnable_neurons (fun _ => 0)
          feedforward_potential := vec n_learnable_neurons (fun _ => 0)
          feedback_potential := vec n_learnable_neurons (fun _ => 0)
          bias_gradient := vec n_learnable_neurons (fun _ => 0)
          ff_gradient := ten3 n_learnable_neurons n_neurons n_basis_feedforward (fun _ _ _ => 0)
          fb_gradient := mat n_learnable_neurons n_basis_feedback (fun _ _ => 0)
          save_path := save_path
        }
      else .error .ShapeError
    else .error .ShapeError
  else .error .ConfigError

/-- The number of timesteps currently stored in the spiking history (the last
dimension of `self.spiking_history`). -/
def SNNetwork.histLen (net : SNNetwork) : ℕ :=
  net.spiking_history.shape.getD 1 0

/-- `feedforward_trace` of `forward` (line 130):
`matmul(spiking_history.flip(-1), feedforward_filter[:, :T].transpose(0, 1))`,
entry `(j, b)`. -/
def SNNetwork.feedforwardTrace (net : SNNetwork) (j b : ℕ) : ℚ :=
  ∑ t ∈ Finset.range net.histLen,
    net.spiking_history.at2 j (net.histLen - 1 - t) * net.feedforward_filter b t

/-- `feedback_trace` of `forward` (line 133), entry `(j, b)`. -/
def SNNetwork.feedbackTrace (net : SNNetwork) (j b : ℕ) : ℚ :=
  ∑ t ∈ Finset.range net.histLen,
    net.spiking_history.at2 j (net.histLen - 1 - t) * net.feedback_filter b t

/-- `feedforward_potential` (line 131): sum over presynaptic neuron and basis
of `weights * trace * mask`, entry `k`. -/
def SNNetwork.feedforwardPotentialVal (net : SNNetwork) (k : ℕ) : ℚ :=
  ∑ j ∈ Finset.range net.n_neurons, ∑ b ∈ Finset.range net.n_basis_feedforward,
    net.feedforward_weights.at3 k j b * net.feedforwardTrace j b *
      net.feedforward_mask.at3 k j b

/-- `feedback_potential` (line 134): sum over basis of
`feedback_weights * feedback_trace[learnable_neurons, :]`, entry `k`. -/
def SNNetwork.feedbackPotentialVal (net : SNNetwork) (k : ℕ) : ℚ :=
  ∑ b ∈ Finset.range net.n_basis_feedback,
    net.feedback_weights.at2 k b * net.feedbackTrace (net.learnable_neurons.getD k 0) b

/-- `potential` (line 136): feedforward potential + feedback potential + bias,
entry `k`. -/
def SNNetwork.potentialVal (net : SNNetwork) (k : ℕ) : ℚ :=
  net.feedforwardPotentialVal k + net.feedbackPotentialVal k + net.bias.at1 k

/-- The value written into the new (last) history column for neuron `j` by
lines 142-147: the input signal on the visible neurons (a length-1 input is
broadcast by the indexed assignment to every visible row), a Bernoulli draw
from `sigmoid(potential)` on the hidden neurons, and in test mode also on the
output neurons.  `draws j p` stands for `torch.bernoulli(p)` for neuron `j`. -/
def SNNetwork.newColumn (net : SNNetwork) (sig : ℚ → ℚ) (draws : ℕ → ℚ → ℚ)
    (input_signal : NdArray) (j : ℕ) : ℚ :=
  let afterVisible : ℚ :=
    if j ∈ net.visible_neurons then
      if input_signal.shape = [1] then input_signal.at1 0
      else input_signal.at1 (net.visible_neurons.indexOf j)
    else 0
  let afterHidden : ℚ :=
    if net.n_input_neurons ≤ j ∧ j < net.n_input_neurons + net.n_hidden_neurons then
      draws j (sig (net.potentialVal (j - net.n_non_learnable_neurons)))
    else afterVisible
  if net.mode = "test" ∧ net.n_input_neurons + net.n_hidden_neurons ≤ j ∧
      j < net.n_input_neurons + net.n_hidden_neurons + net.n_output_neurons then
    draws j (sig (net.potentialVal (j - net.n_non_learnable_neurons)))
  else afterHidden

/-- The updated spiking history (lines 140-147):
`cat(spiking_history[:, -memory_length+1:], zeros([n_neurons, 1]))` followed by
the writes into the last column. -/
def SNNetwork.slideHistory (net : SNNetwork) (sig : ℚ → ℚ) (draws : ℕ → ℚ → ℚ)
    (input_signal : NdArray) : NdArray :=
  let start := pySliceStart (1 - (net.memory_length : Int)) net.histLen
  let kept := net.histLen - start
  mat net.n_neurons (kept + 1) (fun j t =>
    if t < kept then net.spiking_history.at2 j (start + t)
    else if t = kept then net.newColumn sig draws input_signal j
    else 0)

/-- `spiking_history[learnable_neurons, -1]` read after the update: the new
spike value of learnable neuron number `k`. -/
def SNNetwork.spikeVal (net : SNNetwork) (sig : ℚ → ℚ) (draws : ℕ → ℚ → ℚ)
    (input_signal : NdArray) (k : ℕ) : ℚ :=
  (net.slideHistory sig draws input_signal).at2 (net.learnable_neurons.getD k 0)
    ((net.slideHistory sig draws input_signal).shape.getD 1 0 - 1)

/-- `log_proba` (lines 152-153): per learnable neuron,
`spike * log(1e-07 + sigmoid(potential)) + (1 - spike) * log(1 + 1e-07 - sigmoid(potential))`,
at the new spike value and the potential computed from the pre-update
history. -/
def SNNetwork.logProba (net : SNNetwork) (sig lg : ℚ → ℚ) (draws : ℕ → ℚ → ℚ)
    (input_signal : NdArray) : NdArray :=
  vec net.n_learnable_neurons (fun k =>
    net.spikeVal sig draws input_signal k * lg (1 / 10000000 + sig (net.potentialVal k)) +
      (1 - net.spikeVal sig draws input_signal k) *
        lg (1 + 1 / 10000000 - sig (net.potentialVal k)))

/-- `bias_gradient` (line 161): `spiking_history[learnable_neurons, -1] -
sigmoid(potential)`. -/
def SNNetwork.newBiasGradient (net : SNNetwork) (sig : ℚ → ℚ) (draws : ℕ → ℚ → ℚ)
    (input_signal : NdArray) : NdArray :=
  vec net.n_learnable_neurons (fun k =>
    net.spikeVal sig draws input_signal k - sig (net.potentialVal k))

/-- `ff_gradient` (lines 164-166): the feedforward trace broadcast over the
learnable dimension, times the bias gradient broadcast, times the mask. -/
def SNNetwork.newFfGradient (net : SNNetwork) (sig : ℚ → ℚ) (draws : ℕ → ℚ → ℚ)
    (input_signal : NdArray) : NdArray :=
  ten3 net.n_learnable_neurons net.n_neurons net.n_basis_feedforward (fun i j b =>
    net.feedforwardTrace j b * (net.newBiasGradient sig draws input_signal).at1 i *
      net.feedforward_mask.at3 i j b)

/-- `fb_gradient` (line 169): `feedback_trace[learnable_neurons, :]` times the
bias gradient broadcast. -/
def SNNetwork.newFbGradient (net : SNNetwork) (sig : ℚ → ℚ) (draws : ℕ → ℚ → ℚ)
    (input_signal : NdArray) : NdArray :=
  mat net.n_learnable_neurons net.n_basis_feedback (fun k b =>
    net.feedbackTrace (net.learnable_neurons.getD k 0) b *
      (net.newBiasGradient sig draws input_signal).at1 k)

/-- `SNNetwork.forward` (advance one timestep).  The guards are, in the
source's order: the two neuron-count `assert`s (lines 125-126), the length of
the write of `input_signal` into the visible rows of the new column (line 142,
a `torch` error when the value can be neither matched nor broadcast: a
length-1 value is silently broadcast to every visible row, any other length
must equal the visible count), the `log_proba` shape `assert` (line 155), and
in train mode the three gradient shape `assert`s. -/
def SNNetwork.forward (net : SNNetwork) (sig lg : ℚ → ℚ) (draws : ℕ → ℚ → ℚ)
    (input_signal : NdArray) : Except SNNError (SNNetwork × NdArray) :=
  if net.n_neurons ≠ net.n_input_neurons + net.n_hidden_neurons + net.n_output_neurons then
    .error .ShapeError
  else if net.n_neurons ≠ net.learnable_neurons.length + net.n_non_learnable_neurons then
    .error .ShapeError
  else if input_signal.shape ≠ [net.visible_neurons.length] ∧ input_signal.shape ≠ [1] then
    .error .ShapeError
  else if (net.logProba sig lg draws input_signal).shape ≠ [net.n_learnable_neurons] then
    .error .ShapeError
  else if net.mode = "train" then
    if (net.newBiasGradient sig draws input_signal).shape ≠ net.bias.shape then
      .error .ShapeError
    else if (net.newFfGradient sig draws input_signal).shape ≠ net.feedforward_weights.shape then
      .error .ShapeError
    else if (net.newFbGradient sig draws input_signal).shape ≠ net.feedback_weights.shape then
      .error .ShapeError
    else
      .ok ({ net with
        spiking_history := net.slideHistory sig draws input_signal
        potential := vec net.n_learnable_neurons net.potentialVal
        feedforward_potential := vec net.n_learnable_neurons net.feedforwardPotentialVal
        feedback_potential := vec net.n_learnable_neurons net.feedbackPotentialVal
        bias_gradient := net.newBiasGradient sig draws input_signal
        ff_gradient := net.newFfGradient sig draws input_signal
        fb_gradient := net.newFbGradient sig draws input_signal },
        net.logProba sig lg draws input_signal)
  else
    .ok ({ net with
      spiking_history := net.slideHistory sig draws input_signal
      potential := vec net.n_learnable_neurons net.potentialVal
      feedforward_potential := vec net.n_learnable_neurons net.feedforwardPotentialVal
      feedback_potential := vec net.n_learnable_neurons net.feedbackPotentialVal },
      net.logProba sig lg draws input_signal)

/-- `reset_internal_state`: zero the spiking history (back to a single all-zero
column) and the potential; nothing else is touched. -/
def SNNetwork.reset_internal_state (net : SNNetwork) : SNNetwork :=
  { net with
    spiking_history := mat net.n_neurons 1 (fun _ _ => 0)
    potential := ⟨net.potential.shape, fun _ => 0⟩ }

/-- `reset_weights`: re-draw the feedforward and feedback weights and the bias
from the same uniform distribution as construction, respecting the feedforward
mask.  The fresh `torch.rand` draws are passed in as entry-indexed values. -/
def SNNetwork.reset_weights (net : SNNetwork) (randFF randFB randBias : List ℕ → ℚ) :
    SNNetwork :=
  { net with
    feedforward_weights := ⟨net.feedforward_weights.shape, fun ix =>
      net.weights_magnitude * (randFF ix * 2 - 1) * net.feedforward_mask.val ix⟩
    feedback_weights := ⟨net.feedback_weights.shape, fun ix =>
      net.weights_magnitude * (randFB ix * 2 - 1)⟩
    bias := ⟨net.bias.shape, fun ix => net.weights_magnitude * (randBias ix * 2 - 1)⟩ }

/-- `set_ff_weights`: replace the feedforward weights after the shape check. -/
def SNNetwork.set_ff_weights (net : SNNetwork) (new_weights : NdArray) :
    Except SNNError SNNetwork :=
  if new_weights.shape = net.feedforward_weights.shape then
    .ok { net with feedforward_weights := new_weights }
  else .error .ShapeError

/-- `set_fb_weights`: replace the feedback weights after the shape check. -/
def SNNetwork.set_fb_weights (net : SNNetwork) (new_weights : NdArray) :
    Except SNNError SNNetwork :=
  if new_weights.shape = net.feedback_weights.shape then
    .ok { net with feedback_weights := new_weights }
  else .error .ShapeError

/-- `set_bias`: replace the bias after the shape check. -/
def SNNetwork.set_bias (net : SNNetwork) (new_bias : NdArray) :
    Except SNNError SNNetwork :=
  if new_bias.shape = net.bias.shape then
    .ok { net with bias := new_bias }
  else .error .ShapeError

/-- `set_mode`: toggle the visible-neuron set and the mode flag; an
unrecognized mode string raises (`AttributeError`). -/
def SNNetwork.set_mode (net : SNNetwork) (mode : String) : Except SNNError SNNetwork :=
  if mode = "train" then
    .ok { net with
      visible_neurons := List.range net.n_input_neurons ++
        List.range' (net.n_input_neurons + net.n_hidden_neurons) net.n_output_neurons
      mode := "train" }
  else if mode = "test" then
    .ok { net with visible_neurons := List.range net.n_input_neurons, mode := "test" }
  else .error .ConfigError

/-- The persisted file format: three named arrays. -/
structure WeightStore where
  ff_weights : NdArray
  fb_weights : NdArray
  bias : NdArray

/-- `save` as the source writes it (lines 234-247): raises `FileNotFoundError`
when called with no path and no configured default path, and stores the
feedforward weights a second time under the `bias` name (line 245) instead of
the bias tensor. -/
def SNNetwork.save (net : SNNetwork) (path : Option String) : Except SNNError WeightStore :=
  if path = none ∧ net.save_path = none then .error .FileNotFoundError
  else
    .ok { ff_weights := net.feedforward_weights
          fb_weights := net.feedback_weights
          bias := net.feedforward_weights }

/-- Modelled from the spec: `save` with the described defect corrected — the
array stored under the `bias` name is the actual bias tensor ("writes
feedforward weights, feedback weights, and bias to a named array store"). -/
def SNNetwork.saveFixed (net : SNNetwork) (path : Option String) :
    Except SNNError WeightStore :=
  if path = none ∧ net.save_path = none then .error .FileNotFoundError
  else
    .ok { ff_weights := net.feedforward_weights
          fb_weights := net.feedback_weights
          bias := net.bias }

/-- `import_weights`: read the three arrays and apply them through the
validated setters, in the source's order. -/
def SNNetwork.import_weights (net : SNNetwork) (store : WeightStore) :
    Except SNNError SNNetwork :=
  match net.set_ff_weights store.ff_weights with
  | .error e => .error e
  | .ok net1 =>
    match net1.set_fb_weights store.fb_weights with
    | .error e => .error e
    | .ok net2 => net2.set_bias store.bias

/-! Concrete instances, used to exercise the definitions on explicit inputs. -/

/-- A concrete stand-in for `torch.sigmoid` in the examples. -/
def sig0 : ℚ → ℚ := fun q => q / 2

/-- A concrete stand-in for `torch.log` in the examples. -/
def lg0 : ℚ → ℚ := fun q => q - 1

/-- A concrete stand-in for `torch.bernoulli` in the examples: every draw
spikes. -/
def draws0 : ℕ → ℚ → ℚ := fun _ _ => 1

/-- A concrete feedforward filter constructor, injective in `tau`. -/
def exFfCtor : ℕ → ℕ → ℚ → ℕ → ℕ → ℚ :=
  fun tau nb mu b t => (tau : ℚ) * 100 + (nb : ℚ) * 10 + mu + (b : ℚ) + (t : ℚ)

/-- A concrete feedback filter constructor. -/
def exFbCtor : ℕ → ℕ → ℚ → ℕ → ℕ → ℚ :=
  fun tau nb mu b t => (tau : ℚ) * 1000 + (nb : ℚ) + mu + (b : ℚ) * (t : ℚ)

/-- Fallback network, used only to extract the payload of an `Except` that the
concrete examples below show to be `.ok`. -/
def dummyNet : SNNetwork where
  n_input_neurons := 0
  n_hidden_neurons := 0
  n_output_neurons := 0
  n_neurons := 0
  weights_magnitude := 0
  n_learnable_neurons := 0
  n_non_learnable_neurons := 0
  learnable_neurons := []
  mode := "train"
  visible_neurons := []
  n_basis_feedforward := 0
  feedforward_mask := vec 0 fun _ => 0
  feedforward_weights := vec 0 fun _ => 0
  feedforward_filter := fun _ _ => 0
  tau_ff := 0
  n_basis_feedback := 0
  feedback_mask := vec 0 fun _ => 0
  feedback_weights := vec 0 fun _ => 0
  feedback_filter := fun _ _ => 0
  tau_fb := 0
  bias := vec 0 fun _ => 0
  memory_length := 0
  spiking_history := vec 0 fun _ => 0
  potential := vec 0 fun _ => 0
  feedforward_potential := vec 0 fun _ => 0
  feedback_potential := vec 0 fun _ => 0
  bias_gradient := vec 0 fun _ => 0
  ff_gradient := vec 0 fun _ => 0
  fb_gradient := vec 0 fun _ => 0
  save_path := none

/-- Extract the network of a construction or mode switch known to succeed. -/
def getNet (e : Except SNNError SNNetwork) : SNNetwork :=
  match e with
  | .ok n => n
  | .error _ => dummyNet

/-- A fully connected topology for 1 learnable neuron over 2 neurons. -/
def exTopology : NdArray := mat 1 2 fun _ _ => 1

/-- Concrete network: 1 input, 0 hidden, 1 output neuron, supervised, train
mode, `tau_ff = tau_fb = 2`. -/
def exNet : SNNetwork :=
  getNet (SNNetwork.init 1 0 1 exTopology 1 exFfCtor 1 exFbCtor 2 2 1 (1 / 10)
    "supervised" "train" none (fun _ _ _ => 1) (fun _ _ => 1) (fun _ => 1))

/-- Input vector for `exNet` in train mode (visible = input + output = 2). -/
def exInput : NdArray := vec 2 fun _ => 1

/-- The result of one `forward` call on `exNet`. -/
def exRun : SNNetwork × NdArray :=
  match exNet.forward sig0 lg0 draws0 exInput with
  | .ok p => p
  | .error _ => (dummyNet, vec 0 fun _ => 0)

/-- `exNet` switched to test mode. -/
def exNetTest : SNNetwork := getNet (exNet.set_mode "test")

/-- Input vector for `exNetTest` (visible = input neurons only, 1). -/
def exInputTest : NdArray := vec 1 fun _ => 1

/-- The result of one `forward` call on `exNetTest`. -/
def exTestRun : SNNetwork × NdArray :=
  match exNetTest.forward sig0 lg0 draws0 exInputTest with
  | .ok p => p
  | .error _ => (dummyNet, vec 0 fun _ => 0)

/-- The result of one `forward` call after `reset_internal_state` on `exNet`. -/
def exResetRun : SNNetwork × NdArray :=
  match (exNet.reset_internal_state).forward sig0 lg0 draws0 exInput with
  | .ok p => p
  | .error _ => (dummyNet, vec 0 fun _ => 0)

/-- A topology with a forbidden connection (no synapse from neuron 0). -/
def exTopologyGap : NdArray := mat 1 2 fun _ j => if j = 0 then 0 else 1

/-- Concrete network built from `exTopologyGap`. -/
def exNetGap : SNNetwork :=
  getNet (SNNetwork.init 1 0 1 exTopologyGap 1 exFfCtor 1 exFbCtor 2 2 1 (1 / 10)
    "supervised" "train" none (fun _ _ _ => 1) (fun _ _ => 1) (fun _ => 1))

/-- Concrete network with `tau_ff = 3 ≠ 5 = tau_fb`. -/
def exNetTau : SNNetwork :=
  getNet (SNNetwork.init 1 0 1 exTopology 1 exFfCtor 1 exFbCtor 3 5 1 (1 / 10)
    "supervised" "train" none (fun _ _ _ => 1) (fun _ _ => 1) (fun _ => 1))

/-- The result of a train-mode `forward` call on `exNet` with a length-1 input
vector, which the indexed assignment of line 142 broadcasts to both visible
neurons instead of raising. -/
def exBroadcastRun : SNNetwork × NdArray :=
  match exNet.forward sig0 lg0 draws0 (vec 1 fun _ => 1) with
  | .ok p => p
  | .error _ => (dummyNet, vec 0 fun _ => 0)

/-! Theorems. -/

@[simp] theorem vec_shape (n : ℕ) (f : ℕ → ℚ) : (vec n f).shape = [n] := rfl

@[simp] theorem vec_at1 (n : ℕ) (f : ℕ → ℚ) (i : ℕ) : (vec n f).at1 i = f i := rfl

@[simp] theorem mat_shape (r c : ℕ) (f : ℕ → ℕ → ℚ) : (mat r c f).shape = [r, c] := rfl

@[simp] theorem mat_at2 (r c : ℕ) (f : ℕ → ℕ → ℚ) (i j : ℕ) : (mat r c f).at2 i j = f i j := rfl

@[simp] theorem ten3_shape (a b c : ℕ) (f : ℕ → ℕ → ℕ → ℚ) : (ten3 a b c f).shape = [a, b, c] := rfl

@[simp] theorem ten3_at3 (a b c : ℕ) (f : ℕ → ℕ → ℕ → ℚ) (i j k : ℕ) :
    (ten3 a b c f).at3 i j k = f i j k := rfl

/-- A masked weight entry vanishes when the topology entry behind the mask
vanishes. -/
theorem maskWeightZero (wm r t : ℚ) (c : Prop) [Decidable c] (ht : t = 0) :
    wm * (r * 2 - 1) * (if c then 0 else t) = 0 := by
  split
  · rw [mul_zero]
  · rw [ht, mul_zero]

/-- A masked weight entry vanishes when the mask condition holds. -/
theorem maskWeightSelfZero (wm r t : ℚ) (c : Prop) [Decidable c] (hc : c) :
    wm * (r * 2 - 1) * (if c then 0 else t) = 0 := by
  rw [if_pos hc, mul_zero]

/-- Inversion of a successful `forward` call: the returned log-probability and
every field of the post-state, split by mode. -/
theorem forward_ok_cases (net : SNNetwork) (sig lg : ℚ → ℚ) (draws : ℕ → ℚ → ℚ)
    (input_signal : NdArray) (net' : SNNetwork) (lp : NdArray)
    (h : net.forward sig lg draws input_signal = .ok (net', lp)) :
    lp = net.logProba sig lg draws input_signal ∧
    net'.spiking_history = net.slideHistory sig draws input_signal ∧
    net'.potential = vec net.n_learnable_neurons net.potentialVal ∧
    net'.feedforward_potential = vec net.n_learnable_neurons net.feedforwardPotentialVal ∧
    net'.feedback_potential = vec net.n_learnable_neurons net.feedbackPotentialVal ∧
    (net.mode = "train" →
      net'.bias_gradient = net.newBiasGradient sig draws input_signal ∧
      net'.ff_gradient = net.newFfGradient sig draws input_signal ∧
      net'.fb_gradient = net.newFbGradient sig draws input_signal) ∧
    (¬net.mode = "train" →
      net'.bias_gradient = net.bias_gradient ∧
      net'.ff_gradient = net.ff_gradient ∧
      net'.fb_gradient = net.fb_gradient) ∧
    net'.feedforward_weights = net.feedforward_weights ∧
    net'.feedback_weights = net.feedback_weights ∧
    net'.bias = net.bias ∧
    net'.mode = net.mode ∧
    net'.n_learnable_neurons = net.n_learnable_neurons ∧
    net'.learnable_neurons = net.learnable_neurons := by
  unfold SNNetwork.forward at h
  split at h
  · exact Except.noConfusion h
  split at h
  · exact Except.noConfusion h
  split at h
  · exact Except.noConfusion h
  split at h
  · exact Except.noConfusion h
  split at h
  case isTrue hm =>
    split at h
    · exact Except.noConfusion h
    split at h
    · exact Except.noConfusion h
    split at h
    · exact Except.noConfusion h
    injection h with hpair
    injection hpair with ha hb
    subst ha
    subst hb
    exact ⟨rfl, rfl, rfl, rfl, rfl, fun _ => ⟨rfl, rfl, rfl⟩, fun hn => absurd hm hn,
      rfl, rfl, rfl, rfl, rfl, rfl⟩
  case isFalse hm =>
    injection h with hpair
    injection hpair with ha hb
    subst ha
    subst hb
    exact ⟨rfl, rfl, rfl, rfl, rfl, fun ht => absurd ht hm, fun _ => ⟨rfl, rfl, rfl⟩,
      rfl, rfl, rfl, rfl, rfl, rfl⟩

/-- The `forward` call on `exNet` succeeds and `exRun` is its payload. -/
theorem exRun_ok : exNet.forward sig0 lg0 draws0 exInput = .ok (exRun.1, exRun.2) := rfl

/-- The `forward` call on `exNetTest` succeeds and `exTestRun` is its payload. -/
theorem exTestRun_ok :
    exNetTest.forward sig0 lg0 draws0 exInputTest = .ok (exTestRun.1, exTestRun.2) := rfl

/-- The `forward` call after `reset_internal_state` on `exNet` succeeds and
`exResetRun` is its payload. -/
theorem exResetRun_ok :
    (exNet.reset_internal_state).forward sig0 lg0 draws0 exInput =
      .ok (exResetRun.1, exResetRun.2) := rfl

/-- C1: the claim that the spiking-history window never exceeds
`max(tau_ff, tau_fb)` columns fails on the code at the default time constants
`tau_ff = tau_fb = 1`: there `memory_length = 1` and the slice
`spiking_history[:, -memory_length + 1:]` is `[:, 0:]`, which keeps every
column, so a single `advance` grows the history to 2 columns.  This theorem
evaluates the code at that failing input: after one `forward` the history
shape is `[2, 2]` (2 columns) while `memory_length = max(tau_ff, tau_fb) = 1`. -/
theorem history_window_exceeds_memory_length :
    ((SNNetwork.init 1 0 1 (mat 1 2 fun _ _ => 1) 1 exFfCtor 1 exFbCtor 1 1 1 (1 / 10)
        "supervised" "train" none (fun _ _ _ => 1) (fun _ _ => 1) (fun _ => 1)).bind
      fun net => (net.forward sig0 lg0 draws0 (vec 2 fun _ => 1)).map
        fun p => (p.1.memory_length, p.1.spiking_history.shape)) = .ok (1, [2, 2]) := rfl

/-- C2: `save` followed by `import_weights` restores the feedforward weights,
the feedback weights and the bias bit-for-bit once the save defect is
corrected (`saveFixed` stores the bias under the `bias` name): the imported
network is the original network itself.  The last conjunct exhibits the defect
of the reference `save`: the array it stores under the `bias` name is the
feedforward weight tensor. -/
theorem save_import_roundtrip (net : SNNetwork) (p : String) :
    net.saveFixed (some p) =
      .ok ⟨net.feedforward_weights, net.feedback_weights, net.bias⟩ ∧
    net.import_weights ⟨net.feedforward_weights, net.feedback_weights, net.bias⟩ =
      .ok net ∧
    net.save (some p) =
      .ok ⟨net.feedforward_weights, net.feedback_weights, net.feedforward_weights⟩ := by
  refine ⟨rfl, ?_, rfl⟩
  simp [SNNetwork.import_weights, SNNetwork.set_ff_weights, SNNetwork.set_fb_weights,
    SNNetwork.set_bias]

/-- C3: after any `forward` call in train mode, `bias_gradient` is the new
spike value of each learnable neuron minus the sigmoid of the current
potential; `ff_gradient` is the feedforward trace broadcast times the bias
gradient broadcast times the feedforward mask, of shape
`[n_learnable, n_neurons, n_basis_ff]`; and `fb_gradient` is the learnable
rows of the feedback trace times the bias gradient broadcast, of shape
`[n_learnable, n_basis_fb]`. -/
theorem forward_train_gradients (net : SNNetwork) (sig lg : ℚ → ℚ)
    (draws : ℕ → ℚ → ℚ) (input_signal : NdArray) (net' : SNNetwork) (lp : NdArray)
    (hmode : net.mode = "train")
    (h : net.forward sig lg draws input_signal = .ok (net', lp)) :
    net'.bias_gradient = vec net.n_learnable_neurons (fun k =>
        net.spikeVal sig draws input_signal k - sig (net.potentialVal k)) ∧
    net'.ff_gradient = ten3 net.n_learnable_neurons net.n_neurons net.n_basis_feedforward
        (fun i j b => net.feedforwardTrace j b * net'.bias_gradient.at1 i *
          net.feedforward_mask.at3 i j b) ∧
    net'.fb_gradient = mat net.n_learnable_neurons net.n_basis_feedback
        (fun k b => net.feedbackTrace (net.learnable_neurons.getD k 0) b *
          net'.bias_gradient.at1 k) := by
  obtain ⟨-, -, -, -, -, htr, -, -, -, -, -, -, -⟩ := forward_ok_cases _ _ _ _ _ _ _ h
  obtain ⟨hb, hf, hfb⟩ := htr hmode
  refine ⟨hb, ?_, ?_⟩
  · rw [hf, hb]; rfl
  · rw [hfb, hb]; rfl

/-- C3 at a concrete input: the gradients of one train-mode `forward` call on
`exNet`. -/
theorem forward_train_gradients_example :
    exRun.1.bias_gradient = vec exNet.n_learnable_neurons (fun k =>
        exNet.spikeVal sig0 draws0 exInput k - sig0 (exNet.potentialVal k)) ∧
    exRun.1.ff_gradient = ten3 exNet.n_learnable_neurons exNet.n_neurons
        exNet.n_basis_feedforward (fun i j b =>
          exNet.feedforwardTrace j b * exRun.1.bias_gradient.at1 i *
            exNet.feedforward_mask.at3 i j b) ∧
    exRun.1.fb_gradient = mat exNet.n_learnable_neurons exNet.n_basis_feedback
        (fun k b => exNet.feedbackTrace (exNet.learnable_neurons.getD k 0) b *
          exRun.1.bias_gradient.at1 k) :=
  forward_train_gradients exNet sig0 lg0 draws0 exInput exRun.1 exRun.2 rfl exRun_ok

/-- C4: the vector returned by any `forward` call is, per learnable neuron,
`spike * log(sigmoid(potential) + 1e-7) + (1 - spike) * log(1 - sigmoid(potential) + 1e-7)`
evaluated at the newly written spike value and the potential computed from the
pre-update history, and its shape is `[n_learnable]` (so the shape `assert`
after the computation never fires). -/
theorem forward_logproba_formula (net : SNNetwork) (sig lg : ℚ → ℚ)
    (draws : ℕ → ℚ → ℚ) (input_signal : NdArray) (net' : SNNetwork) (lp : NdArray)
    (h : net.forward sig lg draws input_signal = .ok (net', lp)) :
    lp = vec net.n_learnable_neurons (fun k =>
      net.spikeVal sig draws input_signal k * lg (1 / 10000000 + sig (net.potentialVal k)) +
        (1 - net.spikeVal sig draws input_signal k) *
          lg (1 + 1 / 10000000 - sig (net.potentialVal k))) ∧
    lp.shape = [net.n_learnable_neurons] := by
  obtain ⟨hlp, -, -, -, -, -, -, -, -, -, -, -, -⟩ := forward_ok_cases _ _ _ _ _ _ _ h
  exact ⟨hlp, by rw [hlp]; rfl⟩

/-- C4 at a concrete input: the log-probability vector of one `forward` call
on `exNet`. -/
theorem forward_logproba_example :
    exRun.2 = vec exNet.n_learnable_neurons (fun k =>
      exNet.spikeVal sig0 draws0 exInput k *
          lg0 (1 / 10000000 + sig0 (exNet.potentialVal k)) +
        (1 - exNet.spikeVal sig0 draws0 exInput k) *
          lg0 (1 + 1 / 10000000 - sig0 (exNet.potentialVal k))) ∧
    exRun.2.shape = [exNet.n_learnable_neurons] :=
  forward_logproba_formula exNet sig0 lg0 draws0 exInput exRun.1 exRun.2 exRun_ok

/-- C9: a `forward` call in test mode leaves the three gradient fields exactly
as they were before the call, while the spiking history and the three
potential fields are still assigned their new values. -/
theorem forward_test_mode_frame (net : SNNetwork) (sig lg : ℚ → ℚ)
    (draws : ℕ → ℚ → ℚ) (input_signal : NdArray) (net' : SNNetwork) (lp : NdArray)
    (hmode : net.mode = "test")
    (h : net.forward sig lg draws input_signal = .ok (net', lp)) :
    net'.bias_gradient = net.bias_gradient ∧
    net'.ff_gradient = net.ff_gradient ∧
    net'.fb_gradient = net.fb_gradient ∧
    net'.spiking_history = net.slideHistory sig draws input_signal ∧
    net'.potential = vec net.n_learnable_neurons net.potentialVal ∧
    net'.feedforward_potential = vec net.n_learnable_neurons net.feedforwardPotentialVal ∧
    net'.feedback_potential = vec net.n_learnable_neurons net.feedbackPotentialVal := by
  obtain ⟨-, hh, hp, hfp, hbp, -, hte, -, -, -, -, -, -⟩ := forward_ok_cases _ _ _ _ _ _ _ h
  have hne : ¬net.mode = "train" := by rw [hmode]; decide
  obtain ⟨h1, h2, h3⟩ := hte hne
  exact ⟨h1, h2, h3, hh, hp, hfp, hbp⟩

/-- C9 at a concrete input: the gradient fields of `exNetTest` survive a
test-mode `forward` call unchanged. -/
theorem forward_test_mode_example :
    exTestRun.1.bias_gradient = exNetTest.bias_gradient ∧
    exTestRun.1.ff_gradient = exNetTest.ff_gradient ∧
    exTestRun.1.fb_gradient = exNetTest.fb_gradient ∧
    exTestRun.1.spiking_history = exNetTest.slideHistory sig0 draws0 exInputTest ∧
    exTestRun.1.potential = vec exNetTest.n_learnable_neurons exNetTest.potentialVal ∧
    exTestRun.1.feedforward_potential =
      vec exNetTest.n_learnable_neurons exNetTest.feedforwardPotentialVal ∧
    exTestRun.1.feedback_potential =
      vec exNetTest.n_learnable_neurons exNetTest.feedbackPotentialVal :=
  forward_test_mode_frame exNetTest sig0 lg0 draws0 exInputTest exTestRun.1 exTestRun.2
    rfl exTestRun_ok

/-- C5: for every successful construction, `feedforward_weights[i, j, :]` is 0
whenever the given topology has `topology[i, j] = 0`, and the self-connection
entry of every learnable neuron (row `k`, column `learnable_neurons[k]`) is 0
regardless of the input topology. -/
theorem init_masked_weights_zero (n_input_neurons n_hidden_neurons n_output_neurons : ℕ)
    (topology : NdArray) (n_basis_feedforward : ℕ)
    (feedforward_filter : ℕ → ℕ → ℚ → ℕ → ℕ → ℚ) (n_basis_feedback : ℕ)
    (feedback_filter : ℕ → ℕ → ℚ → ℕ → ℕ → ℚ) (tau_ff tau_fb : ℕ)
    (mu weights_magnitude : ℚ) (task mode : String) (save_path : Option String)
    (randFF : ℕ → ℕ → ℕ → ℚ) (randFB : ℕ → ℕ → ℚ) (randBias : ℕ → ℚ)
    (net : SNNetwork) (i j b k : ℕ)
    (h : SNNetwork.init n_input_neurons n_hidden_neurons n_output_neurons topology
      n_basis_feedforward feedforward_filter n_basis_feedback feedback_filter
      tau_ff tau_fb mu weights_magnitude task mode save_path randFF randFB randBias =
      .ok net) :
    (topology.at2 i j = 0 → net.feedforward_weights.at3 i j b = 0) ∧
    (k < net.n_learnable_neurons →
      net.feedforward_weights.at3 k (net.learnable_neurons.getD k 0) b = 0) := by
  simp only [SNNetwork.init] at h
  repeat' split at h
  any_goals exact Except.noConfusion h
  all_goals injection h with hnet
  all_goals subst hnet
  all_goals refine ⟨fun htopo => ?_, fun hk => ?_⟩
  all_goals simp only [ten3_at3]
  all_goals first
    | exact maskWeightZero _ _ _ _ htopo
    | (refine maskWeightSelfZero _ _ _ _ ?_; exact ⟨hk, by trivial⟩)

/-- C5 at a concrete input: the construction on `exTopologyGap`, whose entry
`(0, 0)` is 0, and the self-connection of learnable neuron 0. -/
theorem init_masked_weights_example :
    (exTopologyGap.at2 0 0 = 0 → exNetGap.feedforward_weights.at3 0 0 0 = 0) ∧
    (0 < exNetGap.n_learnable_neurons →
      exNetGap.feedforward_weights.at3 0 (exNetGap.learnable_neurons.getD 0 0) 0 = 0) :=
  init_masked_weights_zero 1 0 1 exTopologyGap 1 exFfCtor 1 exFbCtor 2 2 1 (1 / 10)
    "supervised" "train" none (fun _ _ _ => 1) (fun _ _ => 1) (fun _ => 1)
    exNetGap 0 0 0 0 rfl

/-- C6: `reset_internal_state` zeroes the spiking history (one all-zero
column) and the potential, touching no weight; both traces over the zeroed
history vanish, so the potential computed during the next `forward` equals the
bias vector exactly — the distribution parameters of a freshly constructed
network with identical weights. -/
theorem reset_then_forward_potential_is_bias (net : SNNetwork) (sig lg : ℚ → ℚ)
    (draws : ℕ → ℚ → ℚ) (input_signal : NdArray) (net' : SNNetwork) (lp : NdArray)
    (j b k : ℕ)
    (h : net.reset_internal_state.forward sig lg draws input_signal = .ok (net', lp)) :
    net.reset_internal_state.spiking_history = mat net.n_neurons 1 (fun _ _ => 0) ∧
    net.reset_internal_state.potential = ⟨net.potential.shape, fun _ => 0⟩ ∧
    net.reset_internal_state.feedforward_weights = net.feedforward_weights ∧
    net.reset_internal_state.feedback_weights = net.feedback_weights ∧
    net.reset_internal_state.bias = net.bias ∧
    net.reset_internal_state.feedforwardTrace j b = 0 ∧
    net.reset_internal_state.feedbackTrace j b = 0 ∧
    net.reset_internal_state.potentialVal k = net.bias.at1 k ∧
    net'.potential = vec net.n_learnable_neurons net.bias.at1 := by
  have hfft : ∀ j b, net.reset_internal_state.feedforwardTrace j b = 0 := by
    intro j b
    simp [SNNetwork.feedforwardTrace, SNNetwork.reset_internal_state, SNNetwork.histLen]
  have hfbt : ∀ j b, net.reset_internal_state.feedbackTrace j b = 0 := by
    intro j b
    simp [SNNetwork.feedbackTrace, SNNetwork.reset_internal_state, SNNetwork.histLen]
  have hpv : ∀ k, net.reset_internal_state.potentialVal k = net.bias.at1 k := by
    intro k
    simp only [SNNetwork.potentialVal, SNNetwork.feedforwardPotentialVal,
      SNNetwork.feedbackPotentialVal, hfft, hfbt, mul_zero, zero_mul,
      Finset.sum_const_zero, zero_add]
    rfl
  obtain ⟨-, -, hp, -, -, -, -, -, -, -, -, -, -⟩ := forward_ok_cases _ _ _ _ _ _ _ h
  refine ⟨rfl, rfl, rfl, rfl, rfl, hfft j b, hfbt j b, hpv k, ?_⟩
  rw [hp]
  exact congrArg (vec net.n_learnable_neurons) (funext hpv)

/-- C6 at a concrete input: reset of `exNet` followed by one `forward` call. -/
theorem reset_then_forward_example :
    exNet.reset_internal_state.spiking_history = mat exNet.n_neurons 1 (fun _ _ => 0) ∧
    exNet.reset_internal_state.potential = ⟨exNet.potential.shape, fun _ => 0⟩ ∧
    exNet.reset_internal_state.feedforward_weights = exNet.feedforward_weights ∧
    exNet.reset_internal_state.feedback_weights = exNet.feedback_weights ∧
    exNet.reset_internal_state.bias = exNet.bias ∧
    exNet.reset_internal_state.feedforwardTrace 0 0 = 0 ∧
    exNet.reset_internal_state.feedbackTrace 0 0 = 0 ∧
    exNet.reset_internal_state.potentialVal 0 = exNet.bias.at1 0 ∧
    exResetRun.1.potential = vec exNet.n_learnable_neurons exNet.bias.at1 :=
  reset_then_forward_potential_is_bias exNet sig0 lg0 draws0 exInput
    exResetRun.1 exResetRun.2 0 0 0 exResetRun_ok

/-- C7: each of `set_ff_weights`, `set_fb_weights` and `set_bias` fails with a
`ShapeError` exactly when the new tensor's shape differs from the current
parameter's shape (the `Except` result carries no new state, so the prior
state is untouched), and with a matching shape it returns the network with
exactly that one parameter replaced. -/
theorem setter_shape_guard (net : SNNetwork) (w : NdArray) :
    (w.shape ≠ net.feedforward_weights.shape ↔
      net.set_ff_weights w = .error SNNError.ShapeError) ∧
    (w.shape = net.feedforward_weights.shape ↔
      net.set_ff_weights w = .ok { net with feedforward_weights := w }) ∧
    (w.shape ≠ net.feedback_weights.shape ↔
      net.set_fb_weights w = .error SNNError.ShapeError) ∧
    (w.shape = net.feedback_weights.shape ↔
      net.set_fb_weights w = .ok { net with feedback_weights := w }) ∧
    (w.shape ≠ net.bias.shape ↔ net.set_bias w = .error SNNError.ShapeError) ∧
    (w.shape = net.bias.shape ↔ net.set_bias w = .ok { net with bias := w }) := by
  unfold SNNetwork.set_ff_weights SNNetwork.set_fb_weights SNNetwork.set_bias
  refine ⟨?_, ?_, ?_, ?_, ?_, ?_⟩ <;> split <;> simp_all

/-- C8 (amended): given the neuron-count invariants checked by `forward`'s own
`assert`s, a test-mode call with an input vector sized to the input neurons
only never raises (the visible set is the input neurons), while a train-mode
call whose input vector has a length other than input + output neurons — and
other than 1, which the indexed assignment of line 142 silently broadcasts to
every visible row — fails with a `ShapeError` (the visible set is input plus
output neurons). -/
theorem forward_visible_count (net : SNNetwork) (sig lg : ℚ → ℚ) (draws : ℕ → ℚ → ℚ)
    (input_signal : NdArray)
    (hsum : net.n_neurons = net.n_input_neurons + net.n_hidden_neurons + net.n_output_neurons)
    (hsplit : net.n_neurons = net.learnable_neurons.length + net.n_non_learnable_neurons) :
    (net.mode = "test" → net.visible_neurons = List.range net.n_input_neurons →
      input_signal.shape = [net.n_input_neurons] →
      net.forward sig lg draws input_signal = .ok ({ net with
        spiking_history := net.slideHistory sig draws input_signal
        potential := vec net.n_learnable_neurons net.potentialVal
        feedforward_potential := vec net.n_learnable_neurons net.feedforwardPotentialVal
        feedback_potential := vec net.n_learnable_neurons net.feedbackPotentialVal },
        net.logProba sig lg draws input_signal)) ∧
    (net.mode = "train" →
      net.visible_neurons = List.range net.n_input_neurons ++
        List.range' (net.n_input_neurons + net.n_hidden_neurons) net.n_output_neurons →
      input_signal.shape ≠ [net.n_input_neurons + net.n_output_neurons] →
      input_signal.shape ≠ [1] →
      net.forward sig lg draws input_signal = .error SNNError.ShapeError) := by
  constructor
  · intro hm hv hi
    unfold SNNetwork.forward
    rw [if_neg (not_not_intro hsum), if_neg (not_not_intro hsplit),
      if_neg (show ¬(input_signal.shape ≠ [net.visible_neurons.length] ∧
          input_signal.shape ≠ [1]) from
        fun hc => hc.1 (by rw [hi, hv, List.length_range])),
      if_neg (not_not_intro (show (net.logProba sig lg draws input_signal).shape =
        [net.n_learnable_neurons] from rfl)),
      if_neg (show ¬net.mode = "train" by rw [hm]; decide)]
  · intro hm hv hi hone
    unfold SNNetwork.forward
    rw [if_neg (not_not_intro hsum), if_neg (not_not_intro hsplit),
      if_pos (show input_signal.shape ≠ [net.visible_neurons.length] ∧
          input_signal.shape ≠ [1] from
        ⟨by rw [hv]; simpa using hi, hone⟩)]

/-- C8 counterexample to the claim as stated: `exNet` is in train mode with 1
input and 1 output neuron, so the claim requires an input vector of length
`n_input + n_output = 2`; yet a `forward` call with a length-1 input completes
without raising — the indexed assignment of line 142 broadcasts the single
value to both visible rows. -/
theorem forward_broadcast_accepts_short_input :
    exNet.mode = "train" ∧
    exNet.n_input_neurons + exNet.n_output_neurons = 2 ∧
    exNet.visible_neurons.length = 2 ∧
    exNet.forward sig0 lg0 draws0 (vec 1 fun _ => 1) =
      .ok (exBroadcastRun.1, exBroadcastRun.2) :=
  ⟨rfl, rfl, rfl, rfl⟩

/-- C8 at a concrete input: `exNetTest` (test mode, 1 input neuron) accepts an
input vector of length 1. -/
theorem forward_visible_count_example :
    exNetTest.forward sig0 lg0 draws0 exInputTest = .ok ({ exNetTest with
      spiking_history := exNetTest.slideHistory sig0 draws0 exInputTest
      potential := vec exNetTest.n_learnable_neurons exNetTest.potentialVal
      feedforward_potential := vec exNetTest.n_learnable_neurons exNetTest.feedforwardPotentialVal
      feedback_potential := vec exNetTest.n_learnable_neurons exNetTest.feedbackPotentialVal },
      exNetTest.logProba sig0 lg0 draws0 exInputTest) :=
  (forward_visible_count exNetTest sig0 lg0 draws0 exInputTest rfl rfl).1 rfl rfl rfl

/-- C10 (implicit): construction builds the feedforward kernel by applying the
feedforward filter constructor to `tau_fb`, the feedback time constant, not to
`tau_ff`; `tau_ff` is stored and enters only `memory_length = max(tau_ff,
tau_fb)`.  So whenever `tau_ff ≠ tau_fb`, the feedforward trace is computed
with a kernel parameterized by `tau_fb`. -/
theorem init_feedforward_filter_uses_tau_fb
    (n_input_neurons n_hidden_neurons n_output_neurons : ℕ)
    (topology : NdArray) (n_basis_feedforward : ℕ)
    (feedforward_filter : ℕ → ℕ → ℚ → ℕ → ℕ → ℚ) (n_basis_feedback : ℕ)
    (feedback_filter : ℕ → ℕ → ℚ → ℕ → ℕ → ℚ) (tau_ff tau_fb : ℕ)
    (mu weights_magnitude : ℚ) (task mode : String) (save_path : Option String)
    (randFF : ℕ → ℕ → ℕ → ℚ) (randFB : ℕ → ℕ → ℚ) (randBias : ℕ → ℚ)
    (net : SNNetwork)
    (h : SNNetwork.init n_input_neurons n_hidden_neurons n_output_neurons topology
      n_basis_feedforward feedforward_filter n_basis_feedback feedback_filter
      tau_ff tau_fb mu weights_magnitude task mode save_path randFF randFB randBias =
      .ok net) :
    net.feedforward_filter = feedforward_filter tau_fb n_basis_feedforward mu ∧
    net.feedback_filter = feedback_filter tau_fb n_basis_feedback mu ∧
    net.tau_ff = tau_ff ∧
    net.memory_length = max tau_ff tau_fb := by
  simp only [SNNetwork.init] at h
  repeat' split at h
  any_goals exact Except.noConfusion h
  all_goals injection h with hnet
  all_goals subst hnet
  all_goals exact ⟨rfl, rfl, rfl, rfl⟩

/-- C10 at a concrete input: `exNetTau` is built with `tau_ff = 3`,
`tau_fb = 5`, and its feedforward kernel is the constructor applied to 5. -/
theorem init_feedforward_filter_example :
    exNetTau.feedforward_filter = exFfCtor 5 1 1 ∧
    exNetTau.feedback_filter = exFbCtor 5 1 1 ∧
    exNetTau.tau_ff = 3 ∧
    exNetTau.memory_length = max 3 5 :=
  init_feedforward_filter_uses_tau_fb 1 0 1 exTopology 1 exFfCtor 1 exFbCtor 3 5 1
    (1 / 10) "supervised" "train" none (fun _ _ _ => 1) (fun _ _ => 1) (fun _ => 1)
    exNetTau rfl
